import Mathlib

/-!
# Verification of the LNG cargo economics calculator

A shallow embedding of `src/notebooks/LNG_deal_economics.py` over the exact
rationals `ℚ` (the Python source computes over IEEE floats; the claims and the
specification speak of exact real arithmetic, which `ℚ` models).

The Python function `lng_cargo_economics` computes a sequence of unrounded
local values (lines 111-169) and then builds the returned dict by rounding
each field (lines 171-189).  We mirror that split: `lng_core` produces the
unrounded figures, `roundReport` applies the per-field rounding, and
`lng_cargo_economics` composes the two.  the `round` builtin of Python rounds half to even;
`roundHalfEven` / `roundTo` model it on `ℚ`.
-/

/-- The two `ValueError`s the source can raise:
`Speed must be positive` (line 58) and
`deal_type must be FOB or DES` (line 160). -/
inductive LNGError where
  | invalidSpeed : LNGError
  | invalidDealType : LNGError
deriving DecidableEq

/-- `CargoParams` dataclass (lines 26-38 of the source).  `deal_type` is a
string in the source (`Literal["FOB", "DES"]` is only a type hint, any string
can arrive at runtime), so it is a `String` here. -/
structure CargoParams where
  deal_type : String
  cargo_mmbtu : ℚ
  sales_price_des : ℚ
  purchase_price_fob : ℚ
  boiloff_rate_voyage : ℚ
  fuel_use_fraction_of_cargo : ℚ
  freight_deduct_usd_per_mmbtu : ℚ
  regas_fee_usd_per_mmbtu : ℚ
  pipeline_tariff_usd_per_mmbtu : ℚ
  hedge_price_usd_per_mmbtu : ℚ
  hedge_volume_mmbtu : ℚ
deriving DecidableEq

/-- `ShippingParams` dataclass (lines 41-46 of the source). -/
structure ShippingParams where
  distance_nm : ℚ
  speed_knots : ℚ
  daily_charter_rate_usd : ℚ
  boiloff_rate_sea_daily : ℚ
deriving DecidableEq

/-- `calc_shipping_days` (lines 53-59): raises when `speed_knots <= 0`,
otherwise `distance_nm / (speed_knots * 24.0)`. -/
def calc_shipping_days (distance_nm speed_knots : ℚ) : Except LNGError ℚ :=
  if speed_knots ≤ 0 then .error .invalidSpeed
  else .ok (distance_nm / (speed_knots * 24))

/-- `calc_voyage_boiloff` (lines 62-68): `cargo * daily_rate * days`. -/
def calc_voyage_boiloff (cargo_mmbtu shipping_days daily_boiloff_rate : ℚ) : ℚ :=
  cargo_mmbtu * daily_boiloff_rate * shipping_days

/-- `calc_fuel_use` (lines 71-75): `cargo * fuel_use_fraction`. -/
def calc_fuel_use (cargo_mmbtu fuel_use_fraction : ℚ) : ℚ :=
  cargo_mmbtu * fuel_use_fraction

/-- `calc_freight_cost` (lines 78-82): `daily_charter * days`. -/
def calc_freight_cost (daily_charter_rate_usd shipping_days : ℚ) : ℚ :=
  daily_charter_rate_usd * shipping_days

/-- `calc_hedge_pnl` (lines 85-95): `(physical_price - hedge_price) * hedge_volume`. -/
def calc_hedge_pnl (hedge_price physical_price hedge_volume : ℚ) : ℚ :=
  (physical_price - hedge_price) * hedge_volume

/-- The unrounded local values computed by `lng_cargo_economics`
(lines 111-169 of the source), before the dict is built. -/
structure RawFigures where
  shipping_days : ℚ
  voyage_boiloff_mmbtu : ℚ
  fuel_use_mmbtu : ℚ
  total_losses_mmbtu : ℚ
  net_delivered_mmbtu : ℚ
  freight_cost_total : ℚ
  regas_cost_total : ℚ
  pipeline_cost_total : ℚ
  gross_margin : ℚ
  downstream_costs : ℚ
  net_margin : ℚ
  hedge_pnl : ℚ
  total_pnl : ℚ
deriving DecidableEq

/-- The body of `lng_cargo_economics` up to line 169: every local value at
full precision.  The `if`-chain on `cargo.deal_type` is lines 131-160; an
unrecognised deal type raises at line 160, after the upstream arithmetic. -/
def lng_core (cargo : CargoParams) (shipping : ShippingParams) :
    Except LNGError RawFigures :=
  match calc_shipping_days shipping.distance_nm shipping.speed_knots with
  | .error e => .error e
  | .ok shipping_days =>
    let freight_cost_total := calc_freight_cost shipping.daily_charter_rate_usd shipping_days
    let voyage_boiloff_mmbtu :=
      calc_voyage_boiloff cargo.cargo_mmbtu shipping_days shipping.boiloff_rate_sea_daily
    let fuel_use_mmbtu := calc_fuel_use cargo.cargo_mmbtu cargo.fuel_use_fraction_of_cargo
    let total_losses_mmbtu := voyage_boiloff_mmbtu + fuel_use_mmbtu
    let net_delivered_mmbtu := max (cargo.cargo_mmbtu - total_losses_mmbtu) 0
    let regas_cost_total := net_delivered_mmbtu * cargo.regas_fee_usd_per_mmbtu
    let pipeline_cost_total := net_delivered_mmbtu * cargo.pipeline_tariff_usd_per_mmbtu
    let branch : Except LNGError (ℚ × ℚ × ℚ × ℚ) :=
      if cargo.deal_type = "DES" then
        let fob_cost_total := cargo.cargo_mmbtu * cargo.purchase_price_fob
        let des_revenue_total := net_delivered_mmbtu * cargo.sales_price_des
        let gross_margin := des_revenue_total - fob_cost_total - freight_cost_total
        let downstream_costs := regas_cost_total + pipeline_cost_total
        let net_margin := gross_margin - downstream_costs
        .ok (gross_margin, downstream_costs, net_margin, cargo.sales_price_des)
      else if cargo.deal_type = "FOB" then
        let fob_revenue_total := cargo.cargo_mmbtu * cargo.purchase_price_fob
        let freight_deduct_total := cargo.cargo_mmbtu * cargo.freight_deduct_usd_per_mmbtu
        let netback_total := fob_revenue_total - freight_deduct_total
        let gross_margin := netback_total - freight_cost_total
        let downstream_costs := regas_cost_total + pipeline_cost_total
        let net_margin := gross_margin - downstream_costs
        .ok (gross_margin, downstream_costs, net_margin,
          cargo.purchase_price_fob - cargo.freight_deduct_usd_per_mmbtu)
      else .error .invalidDealType
    match branch with
    | .error e => .error e
    | .ok (gross_margin, downstream_costs, net_margin, physical_price_for_hedge) =>
      let hedge_pnl := calc_hedge_pnl cargo.hedge_price_usd_per_mmbtu
        physical_price_for_hedge cargo.hedge_volume_mmbtu
      let total_pnl := net_margin + hedge_pnl
      .ok {
        shipping_days := shipping_days
        voyage_boiloff_mmbtu := voyage_boiloff_mmbtu
        fuel_use_mmbtu := fuel_use_mmbtu
        total_losses_mmbtu := total_losses_mmbtu
        net_delivered_mmbtu := net_delivered_mmbtu
        freight_cost_total := freight_cost_total
        regas_cost_total := regas_cost_total
        pipeline_cost_total := pipeline_cost_total
        gross_margin := gross_margin
        downstream_costs := downstream_costs
        net_margin := net_margin
        hedge_pnl := hedge_pnl
        total_pnl := total_pnl }

/-- Round a rational to the nearest integer, ties to even — the behaviour of
the `round` builtin of Python on an exactly-representable value. -/
def roundHalfEven (x : ℚ) : ℤ :=
  if x - ⌊x⌋ < 1/2 then ⌊x⌋
  else if (1:ℚ)/2 < x - ⌊x⌋ then ⌊x⌋ + 1
  else if ⌊x⌋ % 2 = 0 then ⌊x⌋ else ⌊x⌋ + 1

/-- `round(x, n)` of Python on an exact value: round `x * 10^n` half-to-even,
then scale back. -/
def roundTo (n : ℕ) (x : ℚ) : ℚ :=
  (roundHalfEven (x * 10 ^ n) : ℚ) / 10 ^ n

/-- The dict returned by `lng_cargo_economics` (lines 171-189): the `"inputs"`
echo of the two parameter records, and each numeric field rounded — shipping
days to 3 decimal places, everything else to 2. -/
structure EconomicsReport where
  inputs_cargo : CargoParams
  inputs_shipping : ShippingParams
  shipping_days : ℚ
  voyage_boiloff_mmbtu : ℚ
  fuel_use_mmbtu : ℚ
  total_losses_mmbtu : ℚ
  net_delivered_mmbtu : ℚ
  freight_cost_total_usd : ℚ
  regas_cost_total_usd : ℚ
  pipeline_cost_total_usd : ℚ
  gross_margin_usd : ℚ
  downstream_costs_usd : ℚ
  net_margin_usd : ℚ
  hedge_pnl_usd : ℚ
  total_pnl_usd : ℚ
deriving DecidableEq

/-- Lines 171-189 of the source: build the returned dict from the full
precision figures, rounding each field. -/
def roundReport (cargo : CargoParams) (shipping : ShippingParams)
    (f : RawFigures) : EconomicsReport :=
  { inputs_cargo := cargo
    inputs_shipping := shipping
    shipping_days := roundTo 3 f.shipping_days
    voyage_boiloff_mmbtu := roundTo 2 f.voyage_boiloff_mmbtu
    fuel_use_mmbtu := roundTo 2 f.fuel_use_mmbtu
    total_losses_mmbtu := roundTo 2 f.total_losses_mmbtu
    net_delivered_mmbtu := roundTo 2 f.net_delivered_mmbtu
    freight_cost_total_usd := roundTo 2 f.freight_cost_total
    regas_cost_total_usd := roundTo 2 f.regas_cost_total
    pipeline_cost_total_usd := roundTo 2 f.pipeline_cost_total
    gross_margin_usd := roundTo 2 f.gross_margin
    downstream_costs_usd := roundTo 2 f.downstream_costs
    net_margin_usd := roundTo 2 f.net_margin
    hedge_pnl_usd := roundTo 2 f.hedge_pnl
    total_pnl_usd := roundTo 2 f.total_pnl }

/-- `lng_cargo_economics` (lines 102-189): full-precision computation, then
the rounded report. -/
def lng_cargo_economics (cargo : CargoParams) (shipping : ShippingParams) :
    Except LNGError EconomicsReport :=
  (lng_core cargo shipping).map (roundReport cargo shipping)

/-- The derived (numeric) fields of the report, in source order — the dict
minus its `"inputs"` echo.  Used to state that two runs agree on every
derived output field. -/
def derivedOf (r : EconomicsReport) : List ℚ :=
  [r.shipping_days, r.voyage_boiloff_mmbtu, r.fuel_use_mmbtu,
   r.total_losses_mmbtu, r.net_delivered_mmbtu, r.freight_cost_total_usd,
   r.regas_cost_total_usd, r.pipeline_cost_total_usd, r.gross_margin_usd,
   r.downstream_costs_usd, r.net_margin_usd, r.hedge_pnl_usd, r.total_pnl_usd]

/-- The arithmetic computations the source evaluates before the deal-type
check is reached, in program order.  Lines 111-128 (shipping days, freight,
boil-off, fuel use, losses, net delivered, regas, pipeline) all execute
before the `if` on `cargo.deal_type` at line 131; only a non-positive speed
(which makes `calc_shipping_days` raise at line 58) stops execution earlier. -/
def arithmeticBeforeDealTypeCheck (_cargo : CargoParams)
    (shipping : ShippingParams) : List String :=
  if shipping.speed_knots ≤ 0 then []
  else ["shipping_days", "freight_cost_total", "voyage_boiloff_mmbtu",
        "fuel_use_mmbtu", "total_losses_mmbtu", "net_delivered_mmbtu",
        "regas_cost_total", "pipeline_cost_total"]

/-! ## Specification-side formulas

The step formulas of §4.1 of the specification, written directly from the
words of the spec as functions of the two input records, at full precision and
with no rounding.  They are compared with the embedded code above. -/

/-- Spec §4.1 step 1: shipping days = distance / (speed × 24). -/
def spec_shipping_days (s : ShippingParams) : ℚ :=
  s.distance_nm / (s.speed_knots * 24)

/-- Spec §4.1 step 2: voyage boil-off = cargo × sea daily rate × days. -/
def spec_voyage_boiloff (c : CargoParams) (s : ShippingParams) : ℚ :=
  c.cargo_mmbtu * s.boiloff_rate_sea_daily * spec_shipping_days s

/-- Spec §4.1 step 3: fuel use = cargo × fuel-use fraction. -/
def spec_fuel_use (c : CargoParams) : ℚ :=
  c.cargo_mmbtu * c.fuel_use_fraction_of_cargo

/-- Total losses: boil-off + fuel use (the parenthesis of step 4). -/
def spec_total_losses (c : CargoParams) (s : ShippingParams) : ℚ :=
  spec_voyage_boiloff c s + spec_fuel_use c

/-- Spec §4.1 step 4: net delivered = max(cargo − (boil-off + fuel use), 0). -/
def spec_net_delivered (c : CargoParams) (s : ShippingParams) : ℚ :=
  max (c.cargo_mmbtu - spec_total_losses c s) 0

/-- Spec §4.1 step 5: regas cost = net delivered × regas fee. -/
def spec_regas_cost (c : CargoParams) (s : ShippingParams) : ℚ :=
  spec_net_delivered c s * c.regas_fee_usd_per_mmbtu

/-- Spec §4.1 step 5: pipeline cost = net delivered × pipeline tariff. -/
def spec_pipeline_cost (c : CargoParams) (s : ShippingParams) : ℚ :=
  spec_net_delivered c s * c.pipeline_tariff_usd_per_mmbtu

/-- Spec §4.1 step 6: freight cost = daily charter rate × shipping days. -/
def spec_freight_cost (s : ShippingParams) : ℚ :=
  s.daily_charter_rate_usd * spec_shipping_days s

/-- Spec §4.1 step 7: gross margin, by deal type.  DES: DES revenue − FOB
cost − freight cost.  FOB: netback (revenue − freight deduct) − freight
cost. -/
def spec_gross_margin (c : CargoParams) (s : ShippingParams) : ℚ :=
  if c.deal_type = "DES" then
    spec_net_delivered c s * c.sales_price_des
      - c.cargo_mmbtu * c.purchase_price_fob - spec_freight_cost s
  else
    (c.cargo_mmbtu * c.purchase_price_fob
      - c.cargo_mmbtu * c.freight_deduct_usd_per_mmbtu) - spec_freight_cost s

/-- Downstream costs = regas cost + pipeline cost (spec §3 invariant). -/
def spec_downstream_costs (c : CargoParams) (s : ShippingParams) : ℚ :=
  spec_regas_cost c s + spec_pipeline_cost c s

/-- Spec §4.1 step 8: net margin = gross margin − downstream costs. -/
def spec_net_margin (c : CargoParams) (s : ShippingParams) : ℚ :=
  spec_gross_margin c s - spec_downstream_costs c s

/-- Spec §4.1 step 7: the hedge reference price — DES sale price for DES,
purchase price − freight deduct rate for FOB. -/
def spec_physical_price (c : CargoParams) : ℚ :=
  if c.deal_type = "DES" then c.sales_price_des
  else c.purchase_price_fob - c.freight_deduct_usd_per_mmbtu

/-- Spec §4.1 step 9: hedge P&L = (reference price − hedge price) × volume. -/
def spec_hedge_pnl (c : CargoParams) : ℚ :=
  (spec_physical_price c - c.hedge_price_usd_per_mmbtu) * c.hedge_volume_mmbtu

/-- Spec §4.1 step 10: total P&L = net margin + hedge P&L. -/
def spec_total_pnl (c : CargoParams) (s : ShippingParams) : ℚ :=
  spec_net_margin c s + spec_hedge_pnl c

/-- All thirteen full-precision figures assembled from the step formulas of the spec, for comparison with `lng_core`. -/
def specFigures (c : CargoParams) (s : ShippingParams) : RawFigures :=
  { shipping_days := spec_shipping_days s
    voyage_boiloff_mmbtu := spec_voyage_boiloff c s
    fuel_use_mmbtu := spec_fuel_use c
    total_losses_mmbtu := spec_total_losses c s
    net_delivered_mmbtu := spec_net_delivered c s
    freight_cost_total := spec_freight_cost s
    regas_cost_total := spec_regas_cost c s
    pipeline_cost_total := spec_pipeline_cost c s
    gross_margin := spec_gross_margin c s
    downstream_costs := spec_downstream_costs c s
    net_margin := spec_net_margin c s
    hedge_pnl := spec_hedge_pnl c
    total_pnl := spec_total_pnl c s }

/-! ## Concrete inputs used in the worked scenarios -/

/-- The cargo terms of the DES scenario of spec §8 (all values exact
rationals: 9.5 = 19/2 and so on). -/
def c1Cargo : CargoParams :=
  { deal_type := "DES", cargo_mmbtu := 3000000, sales_price_des := 12,
    purchase_price_fob := 19/2, boiloff_rate_voyage := 1/1000,
    fuel_use_fraction_of_cargo := 1/50, freight_deduct_usd_per_mmbtu := 1/5,
    regas_fee_usd_per_mmbtu := 3/10, pipeline_tariff_usd_per_mmbtu := 1/5,
    hedge_price_usd_per_mmbtu := 11, hedge_volume_mmbtu := 2000000 }

/-- The shipping terms of the DES scenario of spec §8. -/
def c1Shipping : ShippingParams :=
  { distance_nm := 9000, speed_knots := 15, daily_charter_rate_usd := 80000,
    boiloff_rate_sea_daily := 1/1000 }

/-- The report the code actually produces on the DES scenario.  Every field
is an integer, so the per-field rounding is the identity here. -/
def c1Report : EconomicsReport :=
  { inputs_cargo := c1Cargo, inputs_shipping := c1Shipping,
    shipping_days := 25, voyage_boiloff_mmbtu := 75000,
    fuel_use_mmbtu := 60000, total_losses_mmbtu := 135000,
    net_delivered_mmbtu := 2865000, freight_cost_total_usd := 2000000,
    regas_cost_total_usd := 859500, pipeline_cost_total_usd := 573000,
    gross_margin_usd := 3880000, downstream_costs_usd := 1432500,
    net_margin_usd := 2447500, hedge_pnl_usd := 2000000,
    total_pnl_usd := 4447500 }

/-- The DES scenario cargo with deal type `"FOB"`, for the FOB-side
scenarios. -/
def fobCargo : CargoParams :=
  { c1Cargo with deal_type := "FOB" }

/-- An input with an unrecognised deal type. -/
def c2Cargo : CargoParams :=
  { c1Cargo with deal_type := "CIF" }

/-- Shipping terms with unit speed and zero distance, charter and boil-off
rate. -/
def c2Shipping : ShippingParams :=
  { distance_nm := 0, speed_knots := 1, daily_charter_rate_usd := 0,
    boiloff_rate_sea_daily := 0 }

/-- Shipping terms with zero speed. -/
def slowShipping : ShippingParams :=
  { c1Shipping with speed_knots := 0 }

/-- Shipping terms with a negative distance (distance is not validated). -/
def negDistShipping : ShippingParams :=
  { c1Shipping with distance_nm := -500 }

/-- A DES input on which net margin = 0.004 and hedge P&L = 0.004, so total
P&L = 0.008: rounding each side separately gives 0.01 on the left and
0 + 0 on the right. -/
def c3Cargo : CargoParams :=
  { deal_type := "DES", cargo_mmbtu := 1, sales_price_des := 63/125,
    purchase_price_fob := 1/2, boiloff_rate_voyage := 0,
    fuel_use_fraction_of_cargo := 0, freight_deduct_usd_per_mmbtu := 0,
    regas_fee_usd_per_mmbtu := 0, pipeline_tariff_usd_per_mmbtu := 0,
    hedge_price_usd_per_mmbtu := 1/2, hedge_volume_mmbtu := 1 }

/-- Shipping terms for the rounding scenario: zero distance and costs. -/
def c3Shipping : ShippingParams :=
  { distance_nm := 0, speed_knots := 1, daily_charter_rate_usd := 0,
    boiloff_rate_sea_daily := 0 }

/-- The report the code produces on the rounding scenario: gross, net and
hedge figures round to 0, the total rounds to 0.01. -/
def c3Report : EconomicsReport :=
  { inputs_cargo := c3Cargo, inputs_shipping := c3Shipping,
    shipping_days := 0, voyage_boiloff_mmbtu := 0, fuel_use_mmbtu := 0,
    total_losses_mmbtu := 0, net_delivered_mmbtu := 1,
    freight_cost_total_usd := 0, regas_cost_total_usd := 0,
    pipeline_cost_total_usd := 0, gross_margin_usd := 0,
    downstream_costs_usd := 0, net_margin_usd := 0, hedge_pnl_usd := 0,
    total_pnl_usd := 1/100 }

/-! ## Characterisation of `lng_core` -/

/-- With a non-positive speed, the computation fails with the invalid-speed
error, whatever the deal type. -/
theorem lng_core_invalid_speed (c : CargoParams) (s : ShippingParams)
    (hs : s.speed_knots ≤ 0) : lng_core c s = .error .invalidSpeed := by
  simp [lng_core, calc_shipping_days, hs]

/-- With a positive speed and a deal type that is neither `"DES"` nor
`"FOB"`, the computation fails with the invalid-deal-type error. -/
theorem lng_core_invalid_deal (c : CargoParams) (s : ShippingParams)
    (hs : 0 < s.speed_knots) (h1 : c.deal_type ≠ "DES")
    (h2 : c.deal_type ≠ "FOB") : lng_core c s = .error .invalidDealType := by
  simp [lng_core, calc_shipping_days, not_le.mpr hs, h1, h2]

/-- With a positive speed and a recognised deal type, `lng_core` succeeds and
its figures are exactly the step formulas of the specification, at full
precision. -/
theorem lng_core_valid (c : CargoParams) (s : ShippingParams)
    (hs : 0 < s.speed_knots) (hd : c.deal_type = "DES" ∨ c.deal_type = "FOB") :
    lng_core c s = .ok (specFigures c s) := by
  have hs' : ¬ s.speed_knots ≤ 0 := not_le.mpr hs
  rcases hd with hd | hd <;>
    simp [lng_core, calc_shipping_days, hs', hd, specFigures,
      spec_shipping_days, spec_voyage_boiloff, spec_fuel_use, spec_total_losses,
      spec_net_delivered, spec_regas_cost, spec_pipeline_cost, spec_freight_cost,
      spec_gross_margin, spec_downstream_costs, spec_net_margin,
      spec_physical_price, spec_hedge_pnl, spec_total_pnl,
      calc_voyage_boiloff, calc_fuel_use, calc_freight_cost, calc_hedge_pnl]

/-- Inversion: a successful run implies a positive speed, a recognised deal
type, and figures given by the spec formulas. -/
theorem lng_core_ok_inv (c : CargoParams) (s : ShippingParams) (f : RawFigures)
    (h : lng_core c s = .ok f) :
    0 < s.speed_knots ∧ (c.deal_type = "DES" ∨ c.deal_type = "FOB") ∧
      f = specFigures c s := by
  by_cases hs : s.speed_knots ≤ 0
  · rw [lng_core_invalid_speed c s hs] at h; exact absurd h (by simp)
  · push_neg at hs
    by_cases h1 : c.deal_type = "DES"
    · rw [lng_core_valid c s hs (Or.inl h1)] at h
      exact ⟨hs, Or.inl h1, (Except.ok.inj h).symm⟩
    · by_cases h2 : c.deal_type = "FOB"
      · rw [lng_core_valid c s hs (Or.inr h2)] at h
        exact ⟨hs, Or.inr h2, (Except.ok.inj h).symm⟩
      · rw [lng_core_invalid_deal c s hs h1 h2] at h
        exact absurd h (by simp)

/-! ## Rounding lemmas and concrete evaluations -/

/-- Rounding to the nearest integer preserves nonnegativity. -/
theorem roundHalfEven_nonneg (x : ℚ) (h : 0 ≤ x) : 0 ≤ roundHalfEven x := by
  unfold roundHalfEven
  have hf : (0:ℤ) ≤ ⌊x⌋ := Int.floor_nonneg.mpr h
  split_ifs <;> omega

/-- Per-field rounding preserves nonnegativity. -/
theorem roundTo_nonneg (n : ℕ) (x : ℚ) (h : 0 ≤ x) : 0 ≤ roundTo n x := by
  unfold roundTo
  apply div_nonneg
  · exact_mod_cast roundHalfEven_nonneg _ (by positivity)
  · positivity

/-- Running the code on the DES scenario of spec §8 yields `c1Report`. -/
theorem c1_evaluation : lng_cargo_economics c1Cargo c1Shipping = .ok c1Report := by
  rw [lng_cargo_economics,
    lng_core_valid c1Cargo c1Shipping (by norm_num [c1Shipping]) (Or.inl rfl)]
  norm_num [roundReport, specFigures, spec_shipping_days, spec_voyage_boiloff,
    spec_fuel_use, spec_total_losses, spec_net_delivered, spec_regas_cost,
    spec_pipeline_cost, spec_freight_cost, spec_gross_margin,
    spec_downstream_costs, spec_net_margin, spec_physical_price, spec_hedge_pnl,
    spec_total_pnl, roundTo, roundHalfEven, c1Cargo, c1Shipping, c1Report,
    max_def, Except.map, EconomicsReport.mk.injEq]

/-- Running the code on the rounding scenario yields `c3Report`. -/
theorem c3_evaluation : lng_cargo_economics c3Cargo c3Shipping = .ok c3Report := by
  rw [lng_cargo_economics,
    lng_core_valid c3Cargo c3Shipping (by norm_num [c3Shipping]) (Or.inl rfl)]
  norm_num [roundReport, specFigures, spec_shipping_days, spec_voyage_boiloff,
    spec_fuel_use, spec_total_losses, spec_net_delivered, spec_regas_cost,
    spec_pipeline_cost, spec_freight_cost, spec_gross_margin,
    spec_downstream_costs, spec_net_margin, spec_physical_price, spec_hedge_pnl,
    spec_total_pnl, roundTo, roundHalfEven, c3Cargo, c3Shipping, c3Report,
    max_def, Except.map, EconomicsReport.mk.injEq]

/-! ## The claims -/

/-- C1 (counterexample): on the DES scenario of spec §8 the code returns
gross margin 3,880,000, net margin 2,447,500 and total P&L 4,447,500 — not
the 2,380,000 / 947,500 / 2,947,500 the claim states (the worked example in
the spec miscomputes 2,865,000 × 12 as 32,880,000; it is 34,380,000). -/
theorem claim_C1_counterexample :
    lng_cargo_economics c1Cargo c1Shipping = .ok c1Report ∧
    c1Report.gross_margin_usd ≠ 2380000 ∧
    c1Report.net_margin_usd ≠ 947500 ∧
    c1Report.total_pnl_usd ≠ 2947500 :=
  ⟨c1_evaluation, by norm_num [c1Report], by norm_num [c1Report],
   by norm_num [c1Report]⟩

/-- C1 (amended): on the DES scenario the code returns shipping_days 25,
fuel_use 60,000, voyage_boiloff 75,000, net_delivered 2,865,000, freight
2,000,000, regas 859,500, pipeline 573,000, hedge P&L 2,000,000 — and gross
margin 3,880,000, net margin 2,447,500, total P&L 4,447,500. -/
theorem claim_C1 : lng_cargo_economics c1Cargo c1Shipping = .ok c1Report :=
  c1_evaluation

/-- C2 (counterexample): with deal type `"CIF"` and unit speed the code does
fail with the invalid-deal-type error, but the shipping-days, freight,
boil-off, fuel-use, net-delivered, regas and pipeline computations are all
evaluated before that failure (lines 111-128 precede the check at line 159),
so the failure is not "before any arithmetic". -/
theorem claim_C2_counterexample :
    lng_cargo_economics c2Cargo c2Shipping = .error .invalidDealType ∧
    arithmeticBeforeDealTypeCheck c2Cargo c2Shipping ≠ [] := by
  constructor
  · rw [lng_cargo_economics, lng_core_invalid_deal c2Cargo c2Shipping
      (by norm_num [c2Shipping]) (by decide) (by decide)]
    rfl
  · decide

/-- C2 (amended): an input whose deal type is neither FOB nor DES fails with
the invalid-deal-type error when speed is positive, but the shipping-days,
freight, boil-off, fuel-use, losses, net-delivered, regas and pipeline
computations are all evaluated before the failure; when speed ≤ 0 the
invalid-speed error is raised instead. -/
theorem claim_C2 (c : CargoParams) (s : ShippingParams)
    (h1 : c.deal_type ≠ "DES") (h2 : c.deal_type ≠ "FOB") :
    (0 < s.speed_knots →
      lng_cargo_economics c s = .error .invalidDealType ∧
      arithmeticBeforeDealTypeCheck c s =
        ["shipping_days", "freight_cost_total", "voyage_boiloff_mmbtu",
         "fuel_use_mmbtu", "total_losses_mmbtu", "net_delivered_mmbtu",
         "regas_cost_total", "pipeline_cost_total"]) ∧
    (s.speed_knots ≤ 0 →
      lng_cargo_economics c s = .error .invalidSpeed) := by
  constructor
  · intro hs
    constructor
    · rw [lng_cargo_economics, lng_core_invalid_deal c s hs h1 h2]; rfl
    · rw [arithmeticBeforeDealTypeCheck, if_neg (not_le.mpr hs)]
  · intro hs
    rw [lng_cargo_economics, lng_core_invalid_speed c s hs]; rfl

/-- Witness for C2 at a concrete input. -/
theorem claim_C2_witness :
    lng_cargo_economics c2Cargo c2Shipping = .error .invalidDealType ∧
    arithmeticBeforeDealTypeCheck c2Cargo c2Shipping =
      ["shipping_days", "freight_cost_total", "voyage_boiloff_mmbtu",
       "fuel_use_mmbtu", "total_losses_mmbtu", "net_delivered_mmbtu",
       "regas_cost_total", "pipeline_cost_total"] :=
  (claim_C2 c2Cargo c2Shipping (by decide) (by decide)).1
    (by norm_num [c2Shipping])

/-- C3 (counterexample): on `c3Cargo`/`c3Shipping` the returned report has
total_pnl_usd = 0.01 but net_margin_usd = hedge_pnl_usd = 0: the identity
does not survive the per-field rounding. -/
theorem claim_C3_counterexample :
    lng_cargo_economics c3Cargo c3Shipping = .ok c3Report ∧
    c3Report.total_pnl_usd ≠ c3Report.net_margin_usd + c3Report.hedge_pnl_usd :=
  ⟨c3_evaluation, by norm_num [c3Report]⟩

/-- C3 (amended): on every successful run the full-precision figures satisfy
total_pnl = net_margin + hedge_pnl and downstream_costs = regas + pipeline
exactly; the identity holds before the per-field rounding of the output. -/
theorem claim_C3 (c : CargoParams) (s : ShippingParams) (f : RawFigures)
    (h : lng_core c s = .ok f) :
    f.total_pnl = f.net_margin + f.hedge_pnl ∧
    f.downstream_costs = f.regas_cost_total + f.pipeline_cost_total := by
  obtain ⟨-, -, hf⟩ := lng_core_ok_inv c s f h
  subst hf
  exact ⟨rfl, rfl⟩

/-- Witness for C3 at the DES scenario. -/
theorem claim_C3_witness :
    (specFigures c1Cargo c1Shipping).total_pnl =
      (specFigures c1Cargo c1Shipping).net_margin +
        (specFigures c1Cargo c1Shipping).hedge_pnl ∧
    (specFigures c1Cargo c1Shipping).downstream_costs =
      (specFigures c1Cargo c1Shipping).regas_cost_total +
        (specFigures c1Cargo c1Shipping).pipeline_cost_total :=
  claim_C3 c1Cargo c1Shipping _
    (lng_core_valid c1Cargo c1Shipping (by norm_num [c1Shipping]) (Or.inl rfl))

/-- C4: every numeric field of a returned report is the full-precision value
of its defining formula (the spec step formulas, composed without any
intermediate rounding) rounded once — to 3 decimal places for shipping days
and to 2 for everything else. -/
theorem claim_C4 (c : CargoParams) (s : ShippingParams) (r : EconomicsReport)
    (h : lng_cargo_economics c s = .ok r) :
    r.shipping_days = roundTo 3 (spec_shipping_days s) ∧
    r.voyage_boiloff_mmbtu = roundTo 2 (spec_voyage_boiloff c s) ∧
    r.fuel_use_mmbtu = roundTo 2 (spec_fuel_use c) ∧
    r.total_losses_mmbtu = roundTo 2 (spec_total_losses c s) ∧
    r.net_delivered_mmbtu = roundTo 2 (spec_net_delivered c s) ∧
    r.freight_cost_total_usd = roundTo 2 (spec_freight_cost s) ∧
    r.regas_cost_total_usd = roundTo 2 (spec_regas_cost c s) ∧
    r.pipeline_cost_total_usd = roundTo 2 (spec_pipeline_cost c s) ∧
    r.gross_margin_usd = roundTo 2 (spec_gross_margin c s) ∧
    r.downstream_costs_usd = roundTo 2 (spec_downstream_costs c s) ∧
    r.net_margin_usd = roundTo 2 (spec_net_margin c s) ∧
    r.hedge_pnl_usd = roundTo 2 (spec_hedge_pnl c) ∧
    r.total_pnl_usd = roundTo 2 (spec_total_pnl c s) := by
  rw [lng_cargo_economics] at h
  cases hcore : lng_core c s with
  | error e => rw [hcore] at h; exact absurd h (by simp [Except.map])
  | ok f =>
    obtain ⟨-, -, hf⟩ := lng_core_ok_inv c s f hcore
    subst hf
    rw [hcore] at h
    simp only [Except.map, Except.ok.injEq] at h
    subst h
    exact ⟨rfl, rfl, rfl, rfl, rfl, rfl, rfl, rfl, rfl, rfl, rfl, rfl, rfl⟩

/-- Witness for C4 at the DES scenario. -/
theorem claim_C4_witness :
    c1Report.shipping_days = roundTo 3 (spec_shipping_days c1Shipping) :=
  (claim_C4 c1Cargo c1Shipping c1Report c1_evaluation).1

/-- C5: on every successful run, net delivered equals
max(cargo − (voyage boil-off + fuel use), 0), so it is never negative; the
rounded report field is never negative either. -/
theorem claim_C5 (c : CargoParams) (s : ShippingParams) (f : RawFigures)
    (h : lng_core c s = .ok f) :
    f.net_delivered_mmbtu =
      max (c.cargo_mmbtu - (f.voyage_boiloff_mmbtu + f.fuel_use_mmbtu)) 0 ∧
    0 ≤ f.net_delivered_mmbtu ∧
    ∀ r : EconomicsReport, lng_cargo_economics c s = .ok r →
      0 ≤ r.net_delivered_mmbtu := by
  obtain ⟨-, -, hf⟩ := lng_core_ok_inv c s f h
  subst hf
  refine ⟨rfl, le_max_right _ _, ?_⟩
  intro r hr
  rw [lng_cargo_economics, h] at hr
  simp only [Except.map, Except.ok.injEq] at hr
  subst hr
  exact roundTo_nonneg 2 _ (le_max_right _ _)

/-- Witness for C5 at the DES scenario. -/
theorem claim_C5_witness :
    (specFigures c1Cargo c1Shipping).net_delivered_mmbtu =
      max (c1Cargo.cargo_mmbtu -
        ((specFigures c1Cargo c1Shipping).voyage_boiloff_mmbtu +
          (specFigures c1Cargo c1Shipping).fuel_use_mmbtu)) 0 ∧
    0 ≤ (specFigures c1Cargo c1Shipping).net_delivered_mmbtu := by
  have h := claim_C5 c1Cargo c1Shipping _
    (lng_core_valid c1Cargo c1Shipping (by norm_num [c1Shipping]) (Or.inl rfl))
  exact ⟨h.1, h.2.1⟩

/-- C6: `boiloff_rate_voyage` is inert — changing it changes no derived
output field of the report, on success or on failure. -/
theorem claim_C6 (c : CargoParams) (s : ShippingParams) (v : ℚ) :
    (lng_cargo_economics { c with boiloff_rate_voyage := v } s).map derivedOf =
      (lng_cargo_economics c s).map derivedOf := by
  by_cases hs : s.speed_knots ≤ 0
  · rw [lng_cargo_economics, lng_cargo_economics,
      lng_core_invalid_speed { c with boiloff_rate_voyage := v } s hs,
      lng_core_invalid_speed c s hs]
    rfl
  · push_neg at hs
    by_cases h1 : c.deal_type = "DES"
    · rw [lng_cargo_economics, lng_cargo_economics,
        lng_core_valid { c with boiloff_rate_voyage := v } s hs (Or.inl h1),
        lng_core_valid c s hs (Or.inl h1)]
      rfl
    · by_cases h2 : c.deal_type = "FOB"
      · rw [lng_cargo_economics, lng_cargo_economics,
          lng_core_valid { c with boiloff_rate_voyage := v } s hs (Or.inr h2),
          lng_core_valid c s hs (Or.inr h2)]
        rfl
      · rw [lng_cargo_economics, lng_cargo_economics,
          lng_core_invalid_deal { c with boiloff_rate_voyage := v } s hs h1 h2,
          lng_core_invalid_deal c s hs h1 h2]
        rfl

/-- C7: any input with speed ≤ 0 fails with the invalid-speed error, whatever
the deal type; distance is not validated, so a non-positive distance with a
positive speed and a recognised deal type still succeeds. -/
theorem claim_C7 (c : CargoParams) (s : ShippingParams) :
    (s.speed_knots ≤ 0 → lng_cargo_economics c s = .error .invalidSpeed) ∧
    (s.distance_nm ≤ 0 → 0 < s.speed_knots →
      (c.deal_type = "DES" ∨ c.deal_type = "FOB") →
      ∃ r : EconomicsReport, lng_cargo_economics c s = .ok r) := by
  constructor
  · intro hs
    rw [lng_cargo_economics, lng_core_invalid_speed c s hs]; rfl
  · intro _ hs hd
    exact ⟨roundReport c s (specFigures c s),
      by rw [lng_cargo_economics, lng_core_valid c s hs hd]; rfl⟩

/-- Witness for C7: zero speed with an invalid deal type still reports the
invalid-speed error; a negative distance passes through on the DES
scenario. -/
theorem claim_C7_witness :
    lng_cargo_economics c2Cargo slowShipping = .error .invalidSpeed ∧
    ∃ r : EconomicsReport, lng_cargo_economics c1Cargo negDistShipping = .ok r :=
  ⟨(claim_C7 c2Cargo slowShipping).1 (by norm_num [slowShipping, c1Shipping]),
   (claim_C7 c1Cargo negDistShipping).2
     (by norm_num [negDistShipping, c1Shipping])
     (by norm_num [negDistShipping, c1Shipping]) (Or.inl rfl)⟩

/-- C8: with a positive speed and a recognised deal type the computation
always returns a report — no error and no other failure is possible; the
single division is by speed × 24, which is nonzero under the guard. -/
theorem claim_C8 (c : CargoParams) (s : ShippingParams)
    (hs : 0 < s.speed_knots)
    (hd : c.deal_type = "FOB" ∨ c.deal_type = "DES") :
    (∃ r : EconomicsReport, lng_cargo_economics c s = .ok r) ∧
    s.speed_knots * 24 ≠ 0 := by
  refine ⟨⟨roundReport c s (specFigures c s), ?_⟩, by positivity⟩
  rw [lng_cargo_economics, lng_core_valid c s hs hd.symm]; rfl

/-- Witness for C8 at the FOB variant of the DES scenario. -/
theorem claim_C8_witness :
    (∃ r : EconomicsReport, lng_cargo_economics fobCargo c1Shipping = .ok r) ∧
    c1Shipping.speed_knots * 24 ≠ 0 :=
  claim_C8 fobCargo c1Shipping (by norm_num [c1Shipping]) (Or.inl rfl)

/-- C9: on every successful FOB run, gross margin =
(cargo × purchase price − cargo × freight deduct rate) − freight cost, with
freight cost = daily charter rate × shipping days subtracted once on top of
the notional deduct, and the hedge P&L uses reference price
purchase price − freight deduct rate. -/
theorem claim_C9 (c : CargoParams) (s : ShippingParams) (f : RawFigures)
    (hd : c.deal_type = "FOB") (h : lng_core c s = .ok f) :
    f.gross_margin = (c.cargo_mmbtu * c.purchase_price_fob
        - c.cargo_mmbtu * c.freight_deduct_usd_per_mmbtu)
      - f.freight_cost_total ∧
    f.freight_cost_total = s.daily_charter_rate_usd * f.shipping_days ∧
    f.hedge_pnl = ((c.purchase_price_fob - c.freight_deduct_usd_per_mmbtu)
        - c.hedge_price_usd_per_mmbtu) * c.hedge_volume_mmbtu := by
  obtain ⟨-, -, hf⟩ := lng_core_ok_inv c s f h
  subst hf
  refine ⟨?_, rfl, ?_⟩
  · simp [specFigures, spec_gross_margin, hd]
  · simp [specFigures, spec_hedge_pnl, spec_physical_price, hd]

/-- Witness for C9 at the FOB variant of the DES scenario. -/
theorem claim_C9_witness :
    (specFigures fobCargo c1Shipping).gross_margin =
      (fobCargo.cargo_mmbtu * fobCargo.purchase_price_fob
        - fobCargo.cargo_mmbtu * fobCargo.freight_deduct_usd_per_mmbtu)
      - (specFigures fobCargo c1Shipping).freight_cost_total ∧
    (specFigures fobCargo c1Shipping).freight_cost_total =
      c1Shipping.daily_charter_rate_usd *
        (specFigures fobCargo c1Shipping).shipping_days ∧
    (specFigures fobCargo c1Shipping).hedge_pnl =
      ((fobCargo.purchase_price_fob - fobCargo.freight_deduct_usd_per_mmbtu)
        - fobCargo.hedge_price_usd_per_mmbtu) * fobCargo.hedge_volume_mmbtu :=
  claim_C9 fobCargo c1Shipping _ rfl
    (lng_core_valid fobCargo c1Shipping (by norm_num [c1Shipping]) (Or.inr rfl))

/-- C10: the pricing field of the opposite branch is inert — on a DES input
the freight deduct rate changes no derived output field, and on an FOB input
the DES sale price changes no derived output field. -/
theorem claim_C10 :
    (∀ (c : CargoParams) (s : ShippingParams) (v : ℚ), c.deal_type = "DES" →
      (lng_cargo_economics { c with freight_deduct_usd_per_mmbtu := v } s).map
          derivedOf
        = (lng_cargo_economics c s).map derivedOf) ∧
    (∀ (c : CargoParams) (s : ShippingParams) (v : ℚ), c.deal_type = "FOB" →
      (lng_cargo_economics { c with sales_price_des := v } s).map derivedOf
        = (lng_cargo_economics c s).map derivedOf) := by
  constructor
  · intro c s v hd
    by_cases hs : s.speed_knots ≤ 0
    · rw [lng_cargo_economics, lng_cargo_economics,
        lng_core_invalid_speed { c with freight_deduct_usd_per_mmbtu := v } s hs,
        lng_core_invalid_speed c s hs]
      rfl
    · push_neg at hs
      rw [lng_cargo_economics, lng_cargo_economics,
        lng_core_valid { c with freight_deduct_usd_per_mmbtu := v } s hs
          (Or.inl hd),
        lng_core_valid c s hs (Or.inl hd)]
      simp [derivedOf, roundReport, specFigures, spec_shipping_days,
        spec_voyage_boiloff, spec_fuel_use, spec_total_losses,
        spec_net_delivered, spec_regas_cost, spec_pipeline_cost,
        spec_freight_cost, spec_gross_margin, spec_downstream_costs,
        spec_net_margin, spec_physical_price, spec_hedge_pnl, spec_total_pnl,
        Except.map, hd]
  · intro c s v hd
    by_cases hs : s.speed_knots ≤ 0
    · rw [lng_cargo_economics, lng_cargo_economics,
        lng_core_invalid_speed { c with sales_price_des := v } s hs,
        lng_core_invalid_speed c s hs]
      rfl
    · push_neg at hs
      rw [lng_cargo_economics, lng_cargo_economics,
        lng_core_valid { c with sales_price_des := v } s hs (Or.inr hd),
        lng_core_valid c s hs (Or.inr hd)]
      simp [derivedOf, roundReport, specFigures, spec_shipping_days,
        spec_voyage_boiloff, spec_fuel_use, spec_total_losses,
        spec_net_delivered, spec_regas_cost, spec_pipeline_cost,
        spec_freight_cost, spec_gross_margin, spec_downstream_costs,
        spec_net_margin, spec_physical_price, spec_hedge_pnl, spec_total_pnl,
        Except.map, hd]

/-- Witness for C10 at the DES scenario and its FOB variant. -/
theorem claim_C10_witness :
    (lng_cargo_economics
        { c1Cargo with freight_deduct_usd_per_mmbtu := 7 } c1Shipping).map
        derivedOf
      = (lng_cargo_economics c1Cargo c1Shipping).map derivedOf ∧
    (lng_cargo_economics { fobCargo with sales_price_des := 7 } c1Shipping).map
        derivedOf
      = (lng_cargo_economics fobCargo c1Shipping).map derivedOf :=
  ⟨claim_C10.1 c1Cargo c1Shipping 7 rfl, claim_C10.2 fobCargo c1Shipping 7 rfl⟩
